import Mathlib

/-!
Verification of the per-unit service cost model of the
energen-calculator-v5.0 repository.

Each definition is a shallow embedding of one function or code block of
the Python scripts under `scripts/python-calculators/` and
`test-helpers/`; numeric literals of the source are modelled as exact
rationals.  The comment above every definition names the script and the
lines it embeds.
-/

/-- Decidable equality for calculation outcomes (an `Except` carries
either a raised error message or a computed rational). -/
instance : DecidableEq (Except String ℚ) := fun a b =>
  match a, b with
  | .ok x, .ok y =>
    if h : x = y then .isTrue (congrArg Except.ok h)
    else .isFalse (fun hc => h (Except.ok.inj hc))
  | .error x, .error y =>
    if h : x = y then .isTrue (congrArg Except.error h)
    else .isFalse (fun hc => h (Except.error.inj hc))
  | .ok _, .error _ => .isFalse (fun hc => Except.noConfusion hc)
  | .error _, .ok _ => .isFalse (fun hc => Except.noConfusion hc)

namespace Energen

/-! ## rebuild-lookup-tables-with-settings.py (lines 18-26, 135, 238)

Global rate settings extracted from `default-settings.json` and the
per-visit totals computed for the Service A and Service B lookup
tables. -/

/-- Global rate settings, lines 18-26 of
rebuild-lookup-tables-with-settings.py (`LABOR_RATE`,
`MOBILIZATION_RATE`, `OIL_BASE`, `OIL_MARKUP`, `COOLANT_BASE`,
`COOLANT_MARKUP`, `PARTS_MARKUP`). -/
structure RateSettings where
  laborRate : ℚ
  mobilizationRate : ℚ
  oilPrice : ℚ
  oilMarkup : ℚ
  coolantPrice : ℚ
  coolantMarkup : ℚ
  partsMarkup : ℚ
deriving DecidableEq

/-- Line 22: `OIL_PRICE = OIL_BASE * OIL_MARKUP`. -/
def OIL_PRICE (s : RateSettings) : ℚ := s.oilPrice * s.oilMarkup

/-- One row of `settings['serviceA']['data']`: labor hours, mobilization
hours and parts cost for a kW-range tier. -/
structure ServiceAData where
  labor : ℚ
  mobilization : ℚ
  parts : ℚ
deriving DecidableEq

/-- Line 135: `total = (values['labor'] + values['mobilization']) *
LABOR_RATE + values['parts']` (Service A per-visit total). -/
def serviceATotal (v : ServiceAData) (s : RateSettings) : ℚ :=
  (v.labor + v.mobilization) * s.laborRate + v.parts

/-- One row of `settings['serviceB']['data']`: labor hours, mobilization
hours, filter cost and oil volume for a kW-range tier. -/
structure ServiceBData where
  labor : ℚ
  mobilization : ℚ
  filterCost : ℚ
  oilGallons : ℚ
deriving DecidableEq

/-- Line 238: `total = (values['labor'] + values['mobilization']) *
LABOR_RATE + values['filterCost'] + (values['oilGallons'] * OIL_PRICE)`
(Service B per-visit total). -/
def serviceBTotal (v : ServiceBData) (s : RateSettings) : ℚ :=
  (v.labor + v.mobilization) * s.laborRate + v.filterCost +
    v.oilGallons * OIL_PRICE s

/-! ## phase4-calculate-pricing.py (lines 150-161)

Option-year escalation applied to the annual grand total.  The same
three lines appear verbatim at lines 191-194 of
phase4-complete-remaining.py. -/

/-- Line 151: `year3_total = total_value * (1 + escalation_rate)`. -/
def year3_total (total_value escalation_rate : ℚ) : ℚ :=
  total_value * (1 + escalation_rate)

/-- Line 152: `year4_total = total_value * (1 + escalation_rate * 2)`. -/
def year4_total (total_value escalation_rate : ℚ) : ℚ :=
  total_value * (1 + escalation_rate * 2)

/-- Line 153: `year5_total = total_value * (1 + escalation_rate * 3)`. -/
def year5_total (total_value escalation_rate : ℚ) : ℚ :=
  total_value * (1 + escalation_rate * 3)

/-- Line 161: `five_year_total = (total_value * 2) + year3_total +
year4_total + year5_total` (years 1 and 2 are the unescalated total). -/
def five_year_total (total_value escalation_rate : ℚ) : ℚ :=
  total_value * 2 + year3_total total_value escalation_rate +
    year4_total total_value escalation_rate +
    year5_total total_value escalation_rate

/-! ## generate-anr6-quotes.py (lines 19-68, 166)

The kW normalization function `clean_kw_value`, the kW-range classifier
`get_kw_range` and the billable filter of the main pipeline.  Python
string primitives (`str.strip`, `str.upper`, `in`, `str.replace`,
`re.sub(r'[^0-9.]', '', s)`, `float(s)`, `round(x, 1)`) are modelled
below on `List Char` / exact rationals; `float` is modelled for finite
decimal literals (optional sign, digits, optional fraction, optional
exponent), returning `none` where Python raises `ValueError`. -/

namespace GenerateAnr6Quotes

/-- Python `str.strip()`: drop whitespace from both ends. -/
def pyStrip (s : String) : String :=
  ⟨((s.data.dropWhile Char.isWhitespace).reverse.dropWhile
      Char.isWhitespace).reverse⟩

/-- Python `str.upper()` (ASCII letters, as in the source's inputs). -/
def pyUpper (s : String) : String := ⟨s.data.map Char.toUpper⟩

/-- Test whether `pat` is a leading segment of `l`. -/
def listStartsWith : List Char → List Char → Bool
  | [], _ => true
  | _ :: _, [] => false
  | a :: as, b :: bs => a == b && listStartsWith as bs

/-- Test whether `pat` occurs as a contiguous segment of `l` (Python
`pat in s`). -/
def listHasSeg (pat : List Char) : List Char → Bool
  | [] => pat.isEmpty
  | c :: cs => listStartsWith pat (c :: cs) || listHasSeg pat cs

/-- Python `pat in s` on strings. -/
def containsSubstr (s pat : String) : Bool := listHasSeg pat.data s.data

/-- Scanner for `removeAll`: the fuel is an upper bound on the number
of characters left, so the recursion is structural; every step consumes
at least one character, so fuel `l.length` never runs out. -/
def removeAllAux (pat : List Char) : ℕ → List Char → List Char
  | 0, _ => []
  | _, [] => []
  | fuel + 1, c :: cs =>
    if !pat.isEmpty && listStartsWith pat (c :: cs) then
      removeAllAux pat fuel (cs.drop (pat.length - 1))
    else c :: removeAllAux pat fuel cs

/-- Remove every (non-overlapping, leftmost-first) occurrence of `pat`,
as Python `s.replace(pat, '')` does. -/
def removeAll (pat : List Char) (l : List Char) : List Char :=
  removeAllAux pat l.length l

/-- Python `s.replace(pat, '')` on strings. -/
def removeAllStr (s pat : String) : String := ⟨removeAll pat.data s.data⟩

/-- Python `re.sub(r'[^0-9.]', '', s)`: keep only digits and dots. -/
def keepDigitsDots (s : String) : String :=
  ⟨s.data.filter (fun c => c.isDigit || c == '.')⟩

/-- Decimal value of a digit run (most significant first). -/
def digitsToNat (ds : List Char) : ℕ :=
  ds.foldl (fun acc c => acc * 10 + (c.toNat - 48)) 0

/-- Split a leading digit run off a character list. -/
def takeDigits (l : List Char) : List Char × List Char :=
  (l.takeWhile Char.isDigit, l.dropWhile Char.isDigit)

/-- Signed mantissa of a decimal literal with integer part `ip` and
fraction part `fp`. -/
def mantissa (sign : ℚ) (ip fp : List Char) : ℚ :=
  sign * ((digitsToNat ip : ℚ) + (digitsToNat fp : ℚ) / 10 ^ fp.length)

/-- Parse the exponent suffix of a decimal literal: empty gives 0,
`e`/`E` with optional sign and digits gives the exponent, anything else
fails. -/
def parseExpPart : List Char → Option ℤ
  | [] => some 0
  | e :: rest =>
    if e == 'e' || e == 'E' then
      let (esign, rest2) : ℤ × List Char :=
        match rest with
        | '+' :: r => (1, r)
        | '-' :: r => (-1, r)
        | _ => (1, rest)
      let (ds, rest3) := takeDigits rest2
      if ds.isEmpty || !rest3.isEmpty then none
      else some (esign * (digitsToNat ds : ℤ))
    else none

/-- Python `float(s)` on finite decimal literals: strip whitespace,
optional sign, digits with at most one dot (at least one digit), and an
optional exponent; `none` models a raised `ValueError`. -/
def pyFloat (s : String) : Option ℚ :=
  let l := (pyStrip s).data
  let (sign, l1) : ℚ × List Char :=
    match l with
    | '+' :: rest => (1, rest)
    | '-' :: rest => (-1, rest)
    | _ => (1, l)
  let (ip, r1) := takeDigits l1
  match r1 with
  | '.' :: rest =>
    let (fp, r2) := takeDigits rest
    if ip.isEmpty && fp.isEmpty then none
    else
      match parseExpPart r2 with
      | some e => some (mantissa sign ip fp * 10 ^ e)
      | none => none
  | _ =>
    if ip.isEmpty then none
    else
      match parseExpPart r1 with
      | some e => some (mantissa sign ip [] * 10 ^ e)
      | none => none

/-- Round-half-to-even to an integer, as Python `round` does. -/
def roundHalfEven (x : ℚ) : ℤ :=
  let f := Int.floor x
  let frac := x - f
  if frac < 1/2 then f
  else if 1/2 < frac then f + 1
  else if f % 2 = 0 then f else f + 1

/-- Python `round(x, 1)`: round to one decimal, half to even. -/
def round1 (x : ℚ) : ℚ := (roundHalfEven (x * 10) : ℚ) / 10

/-- Lines 19-45: `clean_kw_value(val)`.  The input is `none` when
`pd.isna(val)` holds and otherwise the string `str(val)`; the result is
`.error` where the Python function raises `ValueError` (the `float`
calls of the HP/MW/KW branches run outside the final `try`). -/
def clean_kw_value (val : Option String) : Except String ℚ :=
  match val with
  | none => .ok 0
  | some v =>
    let val_str := pyUpper (pyStrip v)
    if containsSubstr val_str "HP" then
      match pyFloat (pyStrip (removeAllStr val_str "HP")) with
      | some hp => .ok (round1 (hp * (746/1000)))
      | none => .error "ValueError: could not convert string to float"
    else if containsSubstr val_str "MW" then
      match pyFloat (pyStrip (removeAllStr val_str "MW")) with
      | some mw => .ok (mw * 1000)
      | none => .error "ValueError: could not convert string to float"
    else if containsSubstr val_str "KW" || containsSubstr val_str "EKW" then
      let kw_str := keepDigitsDots val_str
      if kw_str.data.isEmpty then .ok 0
      else
        match pyFloat kw_str with
        | some x => .ok x
        | none => .error "ValueError: could not convert string to float"
    else
      match pyFloat val_str with
      | some x => .ok x
      | none => .ok 0

/-- Lines 47-68: `get_kw_range(kw)`, the kW-range classifier. -/
def get_kw_range (kw : ℚ) : String :=
  if kw ≤ 14 then "2-14"
  else if kw ≤ 30 then "15-30"
  else if kw ≤ 150 then "35-150"
  else if kw ≤ 250 then "151-250"
  else if kw ≤ 400 then "251-400"
  else if kw ≤ 500 then "401-500"
  else if kw ≤ 670 then "501-670"
  else if kw ≤ 1050 then "671-1050"
  else if kw ≤ 1500 then "1051-1500"
  else "1501+"

/-- Line 166: `generators = df[df['kW_numeric'] > 0]` — only generators
with a strictly positive cleaned kW value are kept for quoting. -/
def billableGenerators (kws : List ℚ) : List ℚ :=
  kws.filter (fun kw => decide (0 < kw))

end GenerateAnr6Quotes

/-! ## create-per-unit-excel.py (lines 113-133) -/

namespace CreatePerUnitExcel

/-- Lines 113-133: the second `get_kw_range(kw)` classifier, used for
the per-unit summary sheet. -/
def get_kw_range (kw : ℚ) : String :=
  if kw ≤ 30 then "15-30 kW"
  else if kw ≤ 150 then "35-150 kW"
  else if kw ≤ 250 then "151-250 kW"
  else if kw ≤ 400 then "251-400 kW"
  else if kw ≤ 500 then "401-500 kW"
  else if kw ≤ 670 then "501-670 kW"
  else if kw ≤ 1050 then "671-1050 kW"
  else if kw ≤ 1500 then "1051-1500 kW"
  else if kw ≤ 2050 then "1501-2050 kW"
  else "2050+ kW"

end CreatePerUnitExcel

/-! Tier ranges named by the classifier's labels, for stating which
values lie strictly inside a tier: lower bound, optional upper bound
(the last tier is upper-open), label. -/

/-- The numeric ranges denoted by the labels that
`GenerateAnr6Quotes.get_kw_range` returns. -/
def tierBounds : List (ℚ × Option ℚ × String) :=
  [(2, some 14, "2-14"), (15, some 30, "15-30"), (35, some 150, "35-150"),
   (151, some 250, "151-250"), (251, some 400, "251-400"),
   (401, some 500, "401-500"), (501, some 670, "501-670"),
   (671, some 1050, "671-1050"), (1051, some 1500, "1051-1500"),
   (1501, none, "1501+")]

/-- Holds when `v` is below the (optional) upper bound of a tier. -/
def belowUpper (v : ℚ) : Option ℚ → Prop
  | some b => v < b
  | none => True

/-! ## phase4-calculate-pricing.py (lines 53-138)

The per-generator pricing loop: each generator's price comes from an
HTTP call to the calculator API; the call is external to the
repository, so a batch is modelled as a list of generators paired with
the outcome their call produced (`.ok annual_total` for HTTP 200,
`.error msg` for a non-200 status or a raised exception, exactly the
two paths of lines 95-135). -/

namespace Phase4CalculatePricing

/-- A generator record from `lbnl-generators.json` as the loop uses it
(lines 61-74): unit number and kW rating. -/
structure Gen where
  unitNumber : String
  kwRating : ℚ
deriving DecidableEq

/-- One entry of the `results` list (lines 102-115 for successes,
121-126 and 130-135 for failures). -/
structure GenResult where
  unitNumber : String
  kwRating : ℚ
  annualPrice : Option ℚ
  err : Option String
  success : Bool
deriving DecidableEq

/-- The loop accumulators of lines 53-55: `results = []`,
`success_count = 0`, `total_value = 0.0`. -/
structure BatchState where
  results : List GenResult
  success_count : ℕ
  total_value : ℚ
deriving DecidableEq

/-- The result entry appended for one generator: lines 102-115 build
the success record (`success: True`), lines 121-126/130-135 the failure
record with its error string (`success: False`). -/
def entryOf (p : Gen × Except String ℚ) : GenResult :=
  match p.2 with
  | .ok annual_total =>
    { unitNumber := p.1.unitNumber, kwRating := p.1.kwRating,
      annualPrice := some annual_total, err := none, success := true }
  | .error e =>
    { unitNumber := p.1.unitNumber, kwRating := p.1.kwRating,
      annualPrice := none, err := some e, success := false }

/-- The annual total of a successful call, `none` for a failed one. -/
def okTotal (p : Gen × Except String ℚ) : Option ℚ :=
  match p.2 with
  | .ok annual_total => some annual_total
  | .error _ => none

/-- One iteration of the loop (lines 61-138): on HTTP 200 the success
entry is appended, `success_count += 1` and
`total_value += annual_total` (lines 99-117); otherwise only the
failure entry is appended (lines 119-135) and the loop continues. -/
def step (st : BatchState) (p : Gen × Except String ℚ) : BatchState :=
  match p.2 with
  | .ok annual_total =>
    { results := st.results ++ [entryOf p],
      success_count := st.success_count + 1,
      total_value := st.total_value + annual_total }
  | .error _ =>
    { results := st.results ++ [entryOf p],
      success_count := st.success_count,
      total_value := st.total_value }

/-- The whole loop over the batch, from the empty initial state. -/
def runBatch (batch : List (Gen × Except String ℚ)) : BatchState :=
  batch.foldl step ⟨[], 0, 0⟩

/-- A concrete three-generator batch whose middle call fails with a
rate-limit error. -/
def demoBatch : List (Gen × Except String ℚ) :=
  [(⟨"Unit-01", 300⟩, .ok 1950),
   (⟨"Unit-02", 20⟩, .error "HTTP 429"),
   (⟨"Unit-03", 350⟩, .ok 796)]

end Phase4CalculatePricing

/-! ## lnbl-per-unit-calculation.py (lines 53-89) -/

namespace LnblPerUnitCalculation

/-- Lines 53-89: the running grand total `total_cost = 0;
for ...: total_cost += unit_total` over the per-unit annual totals. -/
def total_cost (unit_totals : List ℚ) : ℚ :=
  unit_totals.foldl (fun acc unit_total => acc + unit_total) 0

end LnblPerUnitCalculation

/-! ## test-helpers/fetch_calculator_settings.py (lines 56-71, 103-117)

The settings document fetched from `/api/settings` is a JSON object;
the helpers read rate fields with Python `dict.get(key, default)`.  The
document is modelled as its top-level numeric entries plus the optional
nested `serviceD` object. -/

namespace FetchCalculatorSettings

/-- The fetched settings document: top-level numeric fields, and the
nested `serviceD` object when present (`settings.get('serviceD', {})`
turns an absent one into an empty dict). -/
structure SettingsDoc where
  top : List (String × ℚ)
  serviceD : Option (List (String × ℚ))

/-- Python `d.get(key, default)` on a string-keyed numeric dict. -/
def dictGet (d : List (String × ℚ)) (key : String) (default : ℚ) : ℚ :=
  match d.find? (fun p => p.1 == key) with
  | some p => p.2
  | none => default

/-- The dict returned by `get_labor_rates` (lines 113-117). -/
structure LaborRates where
  labor : ℚ
  mobilization : ℚ
  mileage : ℚ
deriving DecidableEq

/-- Lines 103-117: `get_labor_rates(settings)` — every field falls back
to a built-in default (`laborRate` → 180.00, `mobilizationRate` →
180.00, `mileageRate` → 0.67). -/
def get_labor_rates (settings : SettingsDoc) : LaborRates :=
  { labor := dictGet settings.top "laborRate" 180,
    mobilization := dictGet settings.top "mobilizationRate" 180,
    mileage := dictGet settings.top "mileageRate" (67/100) }

/-- The dict returned by `get_service_d_prices` (lines 67-71). -/
structure ServiceDPrices where
  oil : ℚ
  coolant : ℚ
  fuel : ℚ
deriving DecidableEq

/-- Lines 56-71: `get_service_d_prices(settings)` — reads the nested
`serviceD` object, falling back to 16.55 / 16.55 / 60.00 for missing
analysis costs. -/
def get_service_d_prices (settings : SettingsDoc) : ServiceDPrices :=
  let service_d := settings.serviceD.getD []
  { oil := dictGet service_d "oilAnalysisCost" (1655/100),
    coolant := dictGet service_d "coolantAnalysisCost" (1655/100),
    fuel := dictGet service_d "fuelAnalysisCost" 60 }

end FetchCalculatorSettings

end Energen

/-- Claim C1: for every pricing tier with labor hours L, mobilization
hours M and parts cost P, and every labor rate R, the Service A
(Comprehensive Inspection) cost equals (L + M) × R + P; in particular,
for the tier with labor=8, mobilization=2, parts=150 and labor_rate=180
the cost is exactly 1950.00. -/
theorem claim_C1 (v : Energen.ServiceAData) (s : Energen.RateSettings) :
    Energen.serviceATotal v s =
      (v.labor + v.mobilization) * s.laborRate + v.parts ∧
    Energen.serviceATotal ⟨8, 2, 150⟩
      ⟨180, 180, 16, 3/2, 16, 3/2, 5/4⟩ = 1950 := by
  constructor
  · rfl
  · norm_num [Energen.serviceATotal]

/-- Claim C2: for every pricing tier with labor hours L, mobilization
hours M, filter cost F and oil volume G gallons, and settings with oil
unit price p and oil markup m, the Service B (Oil & Filter) cost equals
(L + M) × labor_rate + F + (G × p × m); in particular, for labor=3,
mobilization=1, filter=40, oilGallons=1.5, oilPrice=16, oilMarkup=1.5
and labor_rate=180 the cost is exactly 796.00. -/
theorem claim_C2 (v : Energen.ServiceBData) (s : Energen.RateSettings) :
    Energen.serviceBTotal v s =
      (v.labor + v.mobilization) * s.laborRate + v.filterCost +
        v.oilGallons * s.oilPrice * s.oilMarkup ∧
    Energen.serviceBTotal ⟨3, 1, 40, 3/2⟩
      ⟨180, 180, 16, 3/2, 16, 3/2, 5/4⟩ = 796 := by
  constructor
  · simp only [Energen.serviceBTotal, Energen.OIL_PRICE]; ring
  · norm_num [Energen.serviceBTotal, Energen.OIL_PRICE]

/-- Claim C3 counterexample: at year-1 total T = 100 and escalation rate
r = 0.03, the aggregator's year-3 total is 103, not the compound value
T × (1 + r)^(3-1) = 106.09, and its year-4 total is 106, not
T × (1 + r)^(4-1); compound escalation does not hold. -/
theorem claim_C3_counterexample :
    Energen.year3_total 100 (3/100) ≠ 100 * (1 + 3/100) ^ (3 - 1 : ℕ) ∧
    Energen.year4_total 100 (3/100) ≠ 100 * (1 + 3/100) ^ (4 - 1 : ℕ) := by
  constructor
  · norm_num [Energen.year3_total]
  · norm_num [Energen.year4_total]

/-- Claim C3 amended: the aggregator applies linear (simple)
escalation, not compound: for every year-1 total T and escalation rate
r, year_n_total = T × (1 + r × (n − 2)) for the option years n = 3, 4, 5
(years 1 and 2 are the unescalated T), and hence the five-year contract
total equals T × (5 + 6r). -/
theorem claim_C3_amended (T r : ℚ) :
    Energen.year3_total T r = T * (1 + r * (3 - 2)) ∧
    Energen.year4_total T r = T * (1 + r * (4 - 2)) ∧
    Energen.year5_total T r = T * (1 + r * (5 - 2)) ∧
    Energen.five_year_total T r = T * (5 + 6 * r) := by
  refine ⟨by norm_num [Energen.year3_total], by norm_num [Energen.year4_total],
    by norm_num [Energen.year5_total], ?_⟩
  simp only [Energen.five_year_total, Energen.year3_total,
    Energen.year4_total, Energen.year5_total]
  ring

/-- Claim C4 counterexample: the classification step does not fail on
zero, negative or non-numeric kW input — `get_kw_range` maps 0 and -5
to the smallest tier "2-14", and `clean_kw_value` converts the
non-numeric string "N/A" to 0 and continues. -/
theorem claim_C4_counterexample :
    Energen.GenerateAnr6Quotes.get_kw_range 0 = "2-14" ∧
    Energen.GenerateAnr6Quotes.get_kw_range (-5) = "2-14" ∧
    Energen.GenerateAnr6Quotes.clean_kw_value (some "N/A") =
      .ok 0 := by
  exact ⟨by decide, by decide, rfl⟩

/-- Claim C4 amended: for every kW value ≤ 0, `get_kw_range` silently
returns the smallest tier "2-14" and `clean_kw_value` converts
non-numeric values such as "N/A" to 0; no Unclassifiable error is
raised — instead the pipeline drops non-positive cleaned kW values from
the billable set (`df[df['kW_numeric'] > 0]`) before classification. -/
theorem claim_C4_amended (kw : ℚ) (h : kw ≤ 0) (kws : List ℚ) :
    Energen.GenerateAnr6Quotes.get_kw_range kw = "2-14" ∧
    kw ∉ Energen.GenerateAnr6Quotes.billableGenerators kws ∧
    Energen.GenerateAnr6Quotes.clean_kw_value (some "N/A") =
      .ok 0 := by
  refine ⟨?_, ?_, rfl⟩
  · simp only [Energen.GenerateAnr6Quotes.get_kw_range]
    rw [if_pos (by linarith)]
  · intro hmem
    rw [Energen.GenerateAnr6Quotes.billableGenerators,
      List.mem_filter] at hmem
    have := of_decide_eq_true hmem.2
    linarith

/-- Claim C4 witness: the amended claim at kw = 0 over the batch
[0, 20, 300]. -/
theorem claim_C4_witness :
    Energen.GenerateAnr6Quotes.get_kw_range 0 = "2-14" ∧
    (0 : ℚ) ∉ Energen.GenerateAnr6Quotes.billableGenerators [0, 20, 300] ∧
    Energen.GenerateAnr6Quotes.clean_kw_value (some "N/A") =
      .ok 0 :=
  claim_C4_amended 0 (by norm_num) [0, 20, 300]

set_option maxHeartbeats 2000000 in
/-- Claim C7: for every kW value v strictly inside one defined tier
range (lower bound < v < upper bound; for the upper-open tier "1501+",
1501 < v), the classifier returns exactly that tier's label, and two
calls with the same v return the same tier. -/
theorem claim_C7 (lo : ℚ) (hi : Option ℚ) (label : String)
    (hmem : (lo, hi, label) ∈ Energen.tierBounds) (v : ℚ)
    (hlo : lo < v) (hhi : Energen.belowUpper v hi) :
    Energen.GenerateAnr6Quotes.get_kw_range v = label ∧
    Energen.GenerateAnr6Quotes.get_kw_range v =
      Energen.GenerateAnr6Quotes.get_kw_range v := by
  refine ⟨?_, rfl⟩
  rw [Energen.tierBounds] at hmem
  rcases hmem with _ | ⟨_, _ | ⟨_, _ | ⟨_, _ | ⟨_, _ | ⟨_, _ | ⟨_, _ | ⟨_,
    _ | ⟨_, _ | ⟨_, _ | ⟨_, ⟨⟩⟩⟩⟩⟩⟩⟩⟩⟩⟩⟩
  all_goals simp only [Energen.belowUpper] at hhi
  all_goals rw [Energen.GenerateAnr6Quotes.get_kw_range]
  all_goals split_ifs <;> first | rfl | linarith

/-- Claim C7 witness: v = 100 lies strictly inside the tier "35-150"
and is classified there. -/
theorem claim_C7_witness :
    Energen.GenerateAnr6Quotes.get_kw_range 100 = "35-150" ∧
    Energen.GenerateAnr6Quotes.get_kw_range 100 =
      Energen.GenerateAnr6Quotes.get_kw_range 100 :=
  claim_C7 35 (some 150) "35-150"
    (List.Mem.tail _ (List.Mem.tail _ (List.Mem.head _))) 100 (by norm_num)
    (by simp only [Energen.belowUpper]; norm_num)

/-- Claim C8: the two kW-range classifiers are mutually inconsistent:
for some positive kW value (10) the classifier of
generate-anr6-quotes.py answers "2-14" while the classifier of
create-per-unit-excel.py answers "15-30 kW" — different numeric
buckets even after identifying a label with its " kW"-suffixed form. -/
theorem claim_C8 :
    ∃ v : ℚ, 0 < v ∧
      Energen.GenerateAnr6Quotes.get_kw_range v ++ " kW" ≠
        Energen.CreatePerUnitExcel.get_kw_range v :=
  ⟨10, by decide⟩

/-- Claim C10 counterexample: `clean_kw_value` is not total — on the
input string "XHP" the HP branch calls `float('X')` outside the final
`try` and raises `ValueError` instead of returning a number or 0. -/
theorem claim_C10_counterexample :
    Energen.GenerateAnr6Quotes.clean_kw_value (some "XHP") =
      .error "ValueError: could not convert string to float" := rfl

/-- Claim C10 amended: `clean_kw_value` yields 0 for a missing value
(NaN); for every string containing "HP" whose remaining text parses as
a number hp it yields hp × 0.746 rounded to one decimal (half to
even); for every string containing "MW" (and not "HP") whose remaining
text parses as mw it yields mw × 1000; for every string containing
"KW" (and not "HP"/"MW") it yields the number formed by the digits and
dots extracted from it; and every other value that cannot be parsed as
a number yields 0 — but the HP/MW/KW conversions call float() outside
the exception handler, so a malformed unit string such as "XHP" raises
ValueError rather than yielding 0. -/
theorem claim_C10_amended :
    Energen.GenerateAnr6Quotes.clean_kw_value none = .ok 0 ∧
    (∀ (s : String) (hp : ℚ),
      Energen.GenerateAnr6Quotes.containsSubstr
        (Energen.GenerateAnr6Quotes.pyUpper
          (Energen.GenerateAnr6Quotes.pyStrip s)) "HP" = true →
      Energen.GenerateAnr6Quotes.pyFloat
        (Energen.GenerateAnr6Quotes.pyStrip
          (Energen.GenerateAnr6Quotes.removeAllStr
            (Energen.GenerateAnr6Quotes.pyUpper
              (Energen.GenerateAnr6Quotes.pyStrip s)) "HP")) = some hp →
      Energen.GenerateAnr6Quotes.clean_kw_value (some s) =
        .ok (Energen.GenerateAnr6Quotes.round1 (hp * (746/1000)))) ∧
    (∀ (s : String) (mw : ℚ),
      Energen.GenerateAnr6Quotes.containsSubstr
        (Energen.GenerateAnr6Quotes.pyUpper
          (Energen.GenerateAnr6Quotes.pyStrip s)) "HP" = false →
      Energen.GenerateAnr6Quotes.containsSubstr
        (Energen.GenerateAnr6Quotes.pyUpper
          (Energen.GenerateAnr6Quotes.pyStrip s)) "MW" = true →
      Energen.GenerateAnr6Quotes.pyFloat
        (Energen.GenerateAnr6Quotes.pyStrip
          (Energen.GenerateAnr6Quotes.removeAllStr
            (Energen.GenerateAnr6Quotes.pyUpper
              (Energen.GenerateAnr6Quotes.pyStrip s)) "MW")) = some mw →
      Energen.GenerateAnr6Quotes.clean_kw_value (some s) =
        .ok (mw * 1000)) ∧
    (∀ (s : String) (x : ℚ),
      Energen.GenerateAnr6Quotes.containsSubstr
        (Energen.GenerateAnr6Quotes.pyUpper
          (Energen.GenerateAnr6Quotes.pyStrip s)) "HP" = false →
      Energen.GenerateAnr6Quotes.containsSubstr
        (Energen.GenerateAnr6Quotes.pyUpper
          (Energen.GenerateAnr6Quotes.pyStrip s)) "MW" = false →
      (Energen.GenerateAnr6Quotes.containsSubstr
        (Energen.GenerateAnr6Quotes.pyUpper
          (Energen.GenerateAnr6Quotes.pyStrip s)) "KW" ||
       Energen.GenerateAnr6Quotes.containsSubstr
        (Energen.GenerateAnr6Quotes.pyUpper
          (Energen.GenerateAnr6Quotes.pyStrip s)) "EKW") = true →
      (Energen.GenerateAnr6Quotes.keepDigitsDots
        (Energen.GenerateAnr6Quotes.pyUpper
          (Energen.GenerateAnr6Quotes.pyStrip s))).data.isEmpty = false →
      Energen.GenerateAnr6Quotes.pyFloat
        (Energen.GenerateAnr6Quotes.keepDigitsDots
          (Energen.GenerateAnr6Quotes.pyUpper
            (Energen.GenerateAnr6Quotes.pyStrip s))) = some x →
      Energen.GenerateAnr6Quotes.clean_kw_value (some s) = .ok x) ∧
    (∀ s : String,
      Energen.GenerateAnr6Quotes.containsSubstr
        (Energen.GenerateAnr6Quotes.pyUpper
          (Energen.GenerateAnr6Quotes.pyStrip s)) "HP" = false →
      Energen.GenerateAnr6Quotes.containsSubstr
        (Energen.GenerateAnr6Quotes.pyUpper
          (Energen.GenerateAnr6Quotes.pyStrip s)) "MW" = false →
      (Energen.GenerateAnr6Quotes.containsSubstr
        (Energen.GenerateAnr6Quotes.pyUpper
          (Energen.GenerateAnr6Quotes.pyStrip s)) "KW" ||
       Energen.GenerateAnr6Quotes.containsSubstr
        (Energen.GenerateAnr6Quotes.pyUpper
          (Energen.GenerateAnr6Quotes.pyStrip s)) "EKW") = false →
      Energen.GenerateAnr6Quotes.pyFloat
        (Energen.GenerateAnr6Quotes.pyUpper
          (Energen.GenerateAnr6Quotes.pyStrip s)) = none →
      Energen.GenerateAnr6Quotes.clean_kw_value (some s) = .ok 0) ∧
    Energen.GenerateAnr6Quotes.clean_kw_value (some "XHP") =
      .error "ValueError: could not convert string to float" := by
  refine ⟨rfl, ?_, ?_, ?_, ?_, rfl⟩
  · intro s hp hHP hparse
    simp [Energen.GenerateAnr6Quotes.clean_kw_value, hHP, hparse]
  · intro s mw hHP hMW hparse
    simp [Energen.GenerateAnr6Quotes.clean_kw_value, hHP, hMW, hparse]
  · intro s x hHP hMW hKW hne hparse
    simp [Energen.GenerateAnr6Quotes.clean_kw_value, hHP, hMW, hKW, hne,
      hparse]
  · intro s hHP hMW hKW hparse
    simp [Energen.GenerateAnr6Quotes.clean_kw_value, hHP, hMW, hKW, hparse]

/-- Claim C10 witness: each clause of the amended claim applied at a
concrete input — NaN, "100 HP" (hp = 100, giving 74.6), "1.5MW"
(mw = 1.5, giving 1500), "250 KW" (extracted digits 250), "ABC"
(unparseable, giving 0), and the raising input "XHP". -/
theorem claim_C10_witness :
    Energen.GenerateAnr6Quotes.clean_kw_value none = .ok 0 ∧
    Energen.GenerateAnr6Quotes.clean_kw_value (some "100 HP") =
      .ok (Energen.GenerateAnr6Quotes.round1 (100 * (746/1000))) ∧
    Energen.GenerateAnr6Quotes.clean_kw_value (some "1.5MW") =
      .ok 1500 ∧
    Energen.GenerateAnr6Quotes.clean_kw_value (some "250 KW") =
      .ok 250 ∧
    Energen.GenerateAnr6Quotes.clean_kw_value (some "ABC") = .ok 0 ∧
    Energen.GenerateAnr6Quotes.clean_kw_value (some "XHP") =
      .error "ValueError: could not convert string to float" := by
  obtain ⟨h0, hHPc, hMWc, hKWc, hPlain, hX⟩ := claim_C10_amended
  refine ⟨h0, ?_, ?_, ?_, hPlain "ABC" rfl rfl rfl rfl, hX⟩
  · refine hHPc "100 HP" 100 rfl ?_
    have h : Energen.GenerateAnr6Quotes.pyFloat
        (Energen.GenerateAnr6Quotes.pyStrip
          (Energen.GenerateAnr6Quotes.removeAllStr
            (Energen.GenerateAnr6Quotes.pyUpper
              (Energen.GenerateAnr6Quotes.pyStrip "100 HP")) "HP")) =
        some (Energen.GenerateAnr6Quotes.mantissa 1 ['1', '0', '0'] [] *
          10 ^ (0 : ℤ)) := rfl
    have d : Energen.GenerateAnr6Quotes.digitsToNat ['1', '0', '0'] = 100 :=
      rfl
    have d0 : Energen.GenerateAnr6Quotes.digitsToNat [] = 0 := rfl
    rw [h]
    norm_num [Energen.GenerateAnr6Quotes.mantissa, d, d0]
  · have hm : Energen.GenerateAnr6Quotes.clean_kw_value (some "1.5MW") =
        .ok ((3/2) * 1000) := by
      refine hMWc "1.5MW" (3/2) rfl rfl ?_
      have h : Energen.GenerateAnr6Quotes.pyFloat
          (Energen.GenerateAnr6Quotes.pyStrip
            (Energen.GenerateAnr6Quotes.removeAllStr
              (Energen.GenerateAnr6Quotes.pyUpper
                (Energen.GenerateAnr6Quotes.pyStrip "1.5MW")) "MW")) =
          some (Energen.GenerateAnr6Quotes.mantissa 1 ['1'] ['5'] *
            10 ^ (0 : ℤ)) := rfl
      have d1 : Energen.GenerateAnr6Quotes.digitsToNat ['1'] = 1 := rfl
      have d5 : Energen.GenerateAnr6Quotes.digitsToNat ['5'] = 5 := rfl
      rw [h]
      norm_num [Energen.GenerateAnr6Quotes.mantissa, d1, d5]
    rw [hm]
    norm_num [Except.ok.injEq]
  · refine hKWc "250 KW" 250 rfl rfl rfl rfl ?_
    have h : Energen.GenerateAnr6Quotes.pyFloat
        (Energen.GenerateAnr6Quotes.keepDigitsDots
          (Energen.GenerateAnr6Quotes.pyUpper
            (Energen.GenerateAnr6Quotes.pyStrip "250 KW"))) =
        some (Energen.GenerateAnr6Quotes.mantissa 1 ['2', '5', '0'] [] *
          10 ^ (0 : ℤ)) := rfl
    have d : Energen.GenerateAnr6Quotes.digitsToNat ['2', '5', '0'] = 250 :=
      rfl
    have d0 : Energen.GenerateAnr6Quotes.digitsToNat [] = 0 := rfl
    rw [h]
    norm_num [Energen.GenerateAnr6Quotes.mantissa, d, d0]

/-- The batch loop, started from any state: it appends exactly one
entry per generator, counts the successes, and accumulates the total of
the successful calls only. -/
theorem runBatch_foldl_spec
    (batch : List (Energen.Phase4CalculatePricing.Gen × Except String ℚ))
    (st : Energen.Phase4CalculatePricing.BatchState) :
    (batch.foldl Energen.Phase4CalculatePricing.step st).results =
      st.results ++ batch.map Energen.Phase4CalculatePricing.entryOf ∧
    (batch.foldl Energen.Phase4CalculatePricing.step st).success_count =
      st.success_count +
        (batch.filterMap Energen.Phase4CalculatePricing.okTotal).length ∧
    (batch.foldl Energen.Phase4CalculatePricing.step st).total_value =
      st.total_value +
        (batch.filterMap Energen.Phase4CalculatePricing.okTotal).sum := by
  induction batch generalizing st with
  | nil => simp
  | cons p ps ih =>
    obtain ⟨h1, h2, h3⟩ := ih (Energen.Phase4CalculatePricing.step st p)
    cases hp : p.2 with
    | ok t =>
      refine ⟨?_, ?_, ?_⟩
      · rw [List.foldl_cons, h1]
        simp [Energen.Phase4CalculatePricing.step, hp]
      · rw [List.foldl_cons, h2]
        simp [Energen.Phase4CalculatePricing.step,
          Energen.Phase4CalculatePricing.okTotal, hp]
        omega
      · rw [List.foldl_cons, h3]
        simp [Energen.Phase4CalculatePricing.step,
          Energen.Phase4CalculatePricing.okTotal, hp]
        ring
    | error e =>
      refine ⟨?_, ?_, ?_⟩
      · rw [List.foldl_cons, h1]
        simp [Energen.Phase4CalculatePricing.step, hp]
      · rw [List.foldl_cons, h2]
        simp [Energen.Phase4CalculatePricing.step,
          Energen.Phase4CalculatePricing.okTotal, hp]
      · rw [List.foldl_cons, h3]
        simp [Energen.Phase4CalculatePricing.step,
          Energen.Phase4CalculatePricing.okTotal, hp]

/-- Claim C5: for a batch in which a generator's calculation fails and
the others may succeed, the aggregator records an explicit failure
entry for the failing generator, still processes every generator (one
result entry per batch element), and returns the grand total summed
over the successful generators only — it does not abort the batch. -/
theorem claim_C5
    (batch : List (Energen.Phase4CalculatePricing.Gen × Except String ℚ))
    (g : Energen.Phase4CalculatePricing.Gen) (e : String)
    (hmem : (g, Except.error e) ∈ batch) :
    (Energen.Phase4CalculatePricing.runBatch batch).results.length =
      batch.length ∧
    (Energen.Phase4CalculatePricing.runBatch batch).total_value =
      (batch.filterMap Energen.Phase4CalculatePricing.okTotal).sum ∧
    ({ unitNumber := g.unitNumber, kwRating := g.kwRating,
       annualPrice := none, err := some e, success := false } :
      Energen.Phase4CalculatePricing.GenResult) ∈
      (Energen.Phase4CalculatePricing.runBatch batch).results := by
  obtain ⟨h1, h2, h3⟩ := runBatch_foldl_spec batch ⟨[], 0, 0⟩
  refine ⟨?_, ?_, ?_⟩
  · show (batch.foldl Energen.Phase4CalculatePricing.step
      ⟨[], 0, 0⟩).results.length = batch.length
    rw [h1]
    simp
  · show (batch.foldl Energen.Phase4CalculatePricing.step
      ⟨[], 0, 0⟩).total_value = _
    rw [h3]
    simp
  · show _ ∈ (batch.foldl Energen.Phase4CalculatePricing.step
      ⟨[], 0, 0⟩).results
    rw [h1]
    simp only [List.nil_append]
    have hent : Energen.Phase4CalculatePricing.entryOf (g, Except.error e) =
        { unitNumber := g.unitNumber, kwRating := g.kwRating,
          annualPrice := none, err := some e, success := false } := rfl
    rw [← hent]
    exact List.mem_map_of_mem Energen.Phase4CalculatePricing.entryOf hmem

/-- Claim C5 witness: on the three-generator demo batch whose middle
call fails, the loop yields three result entries, the grand total
1950 + 796 = 2746 over the two successes, and the explicit failure
entry for "Unit-02". -/
theorem claim_C5_witness :
    (Energen.Phase4CalculatePricing.runBatch
      Energen.Phase4CalculatePricing.demoBatch).results.length = 3 ∧
    (Energen.Phase4CalculatePricing.runBatch
      Energen.Phase4CalculatePricing.demoBatch).total_value = 2746 ∧
    ({ unitNumber := "Unit-02", kwRating := 20, annualPrice := none,
       err := some "HTTP 429", success := false } :
      Energen.Phase4CalculatePricing.GenResult) ∈
      (Energen.Phase4CalculatePricing.runBatch
        Energen.Phase4CalculatePricing.demoBatch).results := by
  have h := claim_C5 Energen.Phase4CalculatePricing.demoBatch
    ⟨"Unit-02", 20⟩ "HTTP 429" (List.Mem.tail _ (List.Mem.head _))
  refine ⟨?_, ?_, h.2.2⟩
  · rw [h.1]
    rfl
  · rw [h.2.1]
    simp only [Energen.Phase4CalculatePricing.demoBatch,
      Energen.Phase4CalculatePricing.okTotal, List.filterMap_cons,
      List.filterMap_nil, List.sum_cons, List.sum_nil]
    norm_num

/-- Claim C6 counterexample: on a configuration that is missing every
rate field (the empty settings document), the helpers do not abort with
an error naming the missing field — they return the built-in defaults
(laborRate 180.00, mobilizationRate 180.00, mileageRate 0.67; Service D
analysis costs 16.55 / 16.55 / 60.00) and continue. -/
theorem claim_C6_counterexample :
    Energen.FetchCalculatorSettings.get_labor_rates ⟨[], none⟩ =
      ⟨180, 180, 67/100⟩ ∧
    Energen.FetchCalculatorSettings.get_service_d_prices ⟨[], none⟩ =
      ⟨1655/100, 1655/100, 60⟩ :=
  ⟨rfl, rfl⟩

/-- Claim C6 amended: when a required rate field is missing from the
pricing configuration, the calculation does not abort — each lookup
silently substitutes its built-in default (laborRate → 180.00; a
missing serviceD section yields analysis costs 16.55, 16.55, 60.00)
and continues. -/
theorem claim_C6_amended (d : Energen.FetchCalculatorSettings.SettingsDoc)
    (h1 : d.top.find? (fun p => p.1 == "laborRate") = none)
    (h2 : d.serviceD = none) :
    (Energen.FetchCalculatorSettings.get_labor_rates d).labor = 180 ∧
    Energen.FetchCalculatorSettings.get_service_d_prices d =
      ⟨1655/100, 1655/100, 60⟩ := by
  constructor
  · simp [Energen.FetchCalculatorSettings.get_labor_rates,
      Energen.FetchCalculatorSettings.dictGet, h1]
  · simp [Energen.FetchCalculatorSettings.get_service_d_prices,
      Energen.FetchCalculatorSettings.dictGet, h2]

/-- Claim C6 witness: the amended claim at the empty settings
document. -/
theorem claim_C6_witness :
    (Energen.FetchCalculatorSettings.get_labor_rates ⟨[], none⟩).labor =
      180 ∧
    Energen.FetchCalculatorSettings.get_service_d_prices ⟨[], none⟩ =
      ⟨1655/100, 1655/100, 60⟩ :=
  claim_C6_amended ⟨[], none⟩ rfl rfl

/-- The running accumulation of `total_cost` equals the list sum. -/
theorem total_cost_eq_sum (l : List ℚ) (a : ℚ) :
    l.foldl (fun acc unit_total => acc + unit_total) a = a + l.sum := by
  induction l generalizing a with
  | nil => simp
  | cons x xs ih => simp [List.foldl_cons, ih, List.sum_cons]; ring

/-- Claim C9: the grand total computed by the running sum is
independent of the order in which the generators are processed —
summing any permutation of the per-generator annual costs yields
exactly the same grand total (the model uses exact rational
arithmetic). -/
theorem claim_C9 (l1 l2 : List ℚ) (h : l1.Perm l2) :
    Energen.LnblPerUnitCalculation.total_cost l1 =
      Energen.LnblPerUnitCalculation.total_cost l2 := by
  unfold Energen.LnblPerUnitCalculation.total_cost
  rw [total_cost_eq_sum, total_cost_eq_sum, h.sum_eq]

/-- Claim C9 witness: swapping the first two unit totals leaves the
grand total unchanged. -/
theorem claim_C9_witness :
    Energen.LnblPerUnitCalculation.total_cost [1950, 796, 1224] =
      Energen.LnblPerUnitCalculation.total_cost [796, 1950, 1224] :=
  claim_C9 [1950, 796, 1224] [796, 1950, 1224]
    (List.Perm.swap 796 1950 [1224])
